import Mathlib

/-
Shallow embedding of the Telegram video-generator bot (`railway_bot.py`,
with the generator stub in `main.py`).  Text is modelled as `List Char`
(Python `str`), timestamps as rationals counting seconds, and the
side-effecting parts of the bot as pure functions that either return
explicit outcome values or emit a trace of events.
-/

set_option autoImplicit false

/-- Python strings are modelled as lists of characters. -/
abbrev Str := List Char

/-- Convert a Lean string literal into the `Str` model. -/
def strL (s : String) : Str := s.data

/-- The whitespace characters removed by Python `str.strip()` (ASCII range). -/
def isPySpace (c : Char) : Bool :=
  c == ' ' || c == '\t' || c == '\n' || c == '\r' || c == '\x0b' || c == '\x0c'

/-- Python `s.strip()`: remove leading and trailing whitespace. -/
def stripStr (l : Str) : Str :=
  ((l.dropWhile isPySpace).reverse.dropWhile isPySpace).reverse

/-- Python `s.lower()` (on the ASCII letters the bot cares about). -/
def lowerStr (l : Str) : Str := l.map Char.toLower

/-- Python `text.split('\n')`: split on every newline, keeping empty pieces. -/
def splitNL : Str → List Str
  | [] => [[]]
  | c :: rest =>
    if c == '\n' then [] :: splitNL rest
    else
      match splitNL rest with
      | [] => [[c]]
      | h :: t => (c :: h) :: t

/-- Python `line.split(':', 1)`: the part before the first colon and the part
after it (the whole line paired with `[]` when no colon is present). -/
def splitOnceColon : Str → Str × Str
  | [] => ([], [])
  | c :: rest =>
    if c == ':' then ([], rest)
    else
      let p := splitOnceColon rest
      (c :: p.1, p.2)

/-- Whether `sub` occurs at the start of `s`. -/
def subAt : Str → Str → Bool
  | [], _ => true
  | _ :: _, [] => false
  | a :: as, b :: bs => a == b && subAt as bs

/-- Python `sub in s`: substring containment. -/
def hasSub : Str → Str → Bool
  | [], sub => subAt sub []
  | c :: rest, sub => subAt sub (c :: rest) || hasSub rest sub

/-- The literal key/value words used by `parse_video_config`. -/
def topikW : Str := strL "topik"

def topicW : Str := strL "topic"

def modeW : Str := strL "mode"

def styleW : Str := strL "style"

def gayaW : Str := strL "gaya"

def longW : Str := strL "long"

def shortW : Str := strL "short"

def cinematicW : Str := strL "cinematic"

/-- The config dict built by `parse_video_config`. -/
structure VideoConfig where
  topic : Str
  mode : Str
  style : Str
deriving DecidableEq, Repr

/-- The defaults set before parsing: `{'topic': '', 'mode': 'short', 'style': 'cinematic'}`. -/
def defaultConfig : VideoConfig :=
  { topic := [], mode := shortW, style := cinematicW }

/-- `[line.strip() for line in text.split('\n') if line.strip()]`. -/
def parseLines (text : Str) : List Str :=
  ((splitNL text).map stripStr).filter (fun l => !l.isEmpty)

/-- The key of a line: `line.split(':', 1)[0].strip().lower()`. -/
def keyOf (line : Str) : Str := lowerStr (stripStr (splitOnceColon line).1)

/-- The value of a line: `line.split(':', 1)[1].strip()`. -/
def valOf (line : Str) : Str := stripStr (splitOnceColon line).2

/-- The topic key family: `'topik' in key or 'topic' in key`. -/
def topicFamily (key : Str) : Bool := hasSub key topikW || hasSub key topicW

/-- The mode key family: `'mode' in key`. -/
def modeFamily (key : Str) : Bool := hasSub key modeW

/-- The style key family: `'style' in key or 'gaya' in key`. -/
def styleFamily (key : Str) : Bool := hasSub key styleW || hasSub key gayaW

/-- The mode word stored for a mode line: `'long' if 'long' in value.lower() else 'short'`. -/
def modeValWord (value : Str) : Str :=
  if hasSub (lowerStr value) longW then longW else shortW

/-- The body of the `for line in lines` loop of `parse_video_config`:
skip lines without a colon, otherwise dispatch on the key family
(topic, then mode, then style, mirroring the if/elif chain). -/
def processLine (config : VideoConfig) (line : Str) : VideoConfig :=
  if line.contains ':' then
    if topicFamily (keyOf line) then { config with topic := valOf line }
    else if modeFamily (keyOf line) then { config with mode := modeValWord (valOf line) }
    else if styleFamily (keyOf line) then { config with style := valOf line }
    else config
  else config

/-- `parse_video_config`: fold the loop body over the stripped non-empty lines,
then raise `ValueError("Topik tidak boleh kosong!")` when the topic is empty. -/
def parse_video_config (text : Str) : Except Str VideoConfig :=
  let config := (parseLines text).foldl processLine defaultConfig
  if config.topic.isEmpty then Except.error (strL "Topik tidak boleh kosong!")
  else Except.ok config

/-- Lines that set the topic field: they contain a colon and their key is in
the topic family (checked first in the if/elif chain). -/
def isTopicLine (l : Str) : Bool := l.contains ':' && topicFamily (keyOf l)

/-- Lines that set the mode field: a colon, key in the mode family, and not
already claimed by the topic family. -/
def isModeLine (l : Str) : Bool :=
  l.contains ':' && !topicFamily (keyOf l) && modeFamily (keyOf l)

/-- Lines that set the style field: a colon, key in the style family, and not
already claimed by the topic or mode families. -/
def isStyleLine (l : Str) : Bool :=
  l.contains ':' && !topicFamily (keyOf l) && !modeFamily (keyOf l) && styleFamily (keyOf l)

/-- The last element of a list satisfying `p`, if any. -/
def findLastP (p : Str → Bool) : List Str → Option Str
  | [] => none
  | l :: tl =>
    match findLastP p tl with
    | some x => some x
    | none => if p l then some l else none


/-- `BotConfig.COOLDOWN_HOURS = 24`. -/
def COOLDOWN_HOURS : ℚ := 24

/-- `BotConfig.USER_COOLDOWNS`: map from user id to the timestamp (seconds) of
the last successful generation. -/
abbrev CooldownMap := Int → Option ℚ

/-- The `BotConfig` state that `RateLimiter` reads: the admin allow-list
(strings, as parsed from the `ADMIN_IDS` environment variable) and the
cooldown map. -/
structure BotState where
  admin_ids : List String
  user_cooldowns : CooldownMap

/-- `RateLimiter.can_generate(user_id)` at time `now` (seconds): admins are
always allowed; a user with a record less than `COOLDOWN_HOURS` old is denied
with the remaining hours `COOLDOWN_HOURS - time_passed / 3600`; everyone else
is allowed.  The denial message is modelled by its numeric payload, the
empty reason of an allowance by `none`. -/
def can_generate (s : BotState) (user_id : Int) (now : ℚ) : Bool × Option ℚ :=
  if toString user_id ∈ s.admin_ids then (true, none)
  else
    match s.user_cooldowns user_id with
    | some last_time =>
      let time_passed := now - last_time
      if time_passed < COOLDOWN_HOURS * 3600 then
        (false, some (COOLDOWN_HOURS - time_passed / 3600))
      else (true, none)
    | none => (true, none)

/-- `RateLimiter.mark_generated(user_id)`: record `now` as the user's last
generation time. -/
def mark_generated (m : CooldownMap) (user_id : Int) (now : ℚ) : CooldownMap :=
  fun u => if u = user_id then some now else m u

/-- What `handle_input` does after receiving a plain text message. -/
inductive HandleOutcome where
  | ignored
  | parseFailed (err : Str)
  | started (config : VideoConfig)
deriving DecidableEq

/-- `handle_input`: given the current `waiting_for_input` flag and the message
text, return the new flag value and the outcome.  When the flag is unset the
message is ignored; when parsing raises, the error is reported and the
handler returns with the flag untouched; on success the flag is cleared and
the background task is started. -/
def handle_input (waiting_for_input : Bool) (text : Str) : Bool × HandleOutcome :=
  if !waiting_for_input then (waiting_for_input, HandleOutcome.ignored)
  else
    match parse_video_config text with
    | Except.error e => (waiting_for_input, HandleOutcome.parseFailed e)
    | Except.ok config => (false, HandleOutcome.started config)

/-- The result bundle the external generator returns: the metadata title and
the size in bytes of the produced file. -/
structure GenResult where
  title : Str
  size_bytes : ℚ
deriving DecidableEq

/-- Observable effects of `generate_video_task`, in program order. -/
inductive BotEvent where
  | sendMessage (tag : String)
  | markGenerated (user_id : Int)
  | sendVideoFile (title : Str)
  | deleteFile
  | logError (msg : String)
deriving DecidableEq

/-- `generate_video_task`: the trace of effects of one run of the background
task.  `gen_outcome` is what `generator.generate` does (returns a result or
raises), and `send_ok` is whether the `reply_video` transmission succeeds;
plain `reply_text` progress messages are modelled as non-failing and are
identified by short tags.  An exception from `generate` or from the video
transmission jumps to the `except` branch, which logs the error and sends
the generic failure notice. -/
def generate_video_task (user_id : Int) (gen_outcome : Except String GenResult)
    (send_ok : Bool) : List BotEvent :=
  let progress := [BotEvent.sendMessage "progress1"]
  match gen_outcome with
  | Except.error e =>
      progress ++ [BotEvent.logError e, BotEvent.sendMessage "generation_failed"]
  | Except.ok result =>
      let afterMark := progress ++
        [BotEvent.markGenerated user_id, BotEvent.sendMessage "success_summary"]
      let file_size_mb := result.size_bytes / 1024 / 1024
      if file_size_mb < 50 then
        let attempt := afterMark ++
          [BotEvent.sendMessage "sending", BotEvent.sendVideoFile result.title]
        if send_ok then attempt ++ [BotEvent.deleteFile]
        else attempt ++
          [BotEvent.logError "send failed", BotEvent.sendMessage "generation_failed"]
      else
        afterMark ++ [BotEvent.sendMessage "too_large", BotEvent.deleteFile]

/-- Whether an event is `mark_generated` for the given user. -/
def isMarkFor (user_id : Int) : BotEvent → Bool
  | BotEvent.markGenerated u => u == user_id
  | _ => false

/-- How many times the task marked the given user as generated. -/
def markCount (user_id : Int) (es : List BotEvent) : Nat :=
  (es.filter (isMarkFor user_id)).length

/-- The effect of one event on the cooldown map. -/
def applyEvent (now : ℚ) (m : CooldownMap) : BotEvent → CooldownMap
  | BotEvent.markGenerated uid => mark_generated m uid now
  | _ => m

/-- The effect of a whole trace on the cooldown map. -/
def applyEvents (now : ℚ) (es : List BotEvent) (m : CooldownMap) : CooldownMap :=
  es.foldl (applyEvent now) m

-- Witness inputs used to instantiate the theorems below.

/-- A cooldown state with no admins and one recorded generation for user 1
at time 0. -/
def cooldownState : BotState :=
  { admin_ids := [], user_cooldowns := fun u => if u = 1 then some 0 else none }

/-- A state whose admin list holds user 5, who also has a recent record. -/
def adminState : BotState :=
  { admin_ids := [toString (5 : Int)],
    user_cooldowns := fun u => if u = 5 then some 0 else none }

/-- A generator result well below the 50 MB ceiling. -/
def genOkSmall : GenResult := { title := strL "t", size_bytes := 1000 }

/-- A generator result of exactly 60 MB, above the ceiling. -/
def genOkBig : GenResult := { title := strL "t", size_bytes := 62914560 }

/-- An input whose second topic line overwrites the first with an empty value. -/
def extraneousTopicInput : Str := strL "topic: a\ntopic:"

/-- An input with two mode lines carrying different values. -/
def dupModeInput : Str := strL "topic: x\nmode: long\nmode: nope"

/-- An input whose second key contains both a topic and a mode substring. -/
def mixedKeyInput : Str := strL "mode: long\nmytopicmode: x"

example : parse_video_config (strL "Topik: AI\nMode: long\nStyle: cinematic") =
    Except.ok { topic := strL "AI", mode := strL "long", style := strL "cinematic" } := rfl

example : parse_video_config (strL "Topic: foo") =
    Except.ok { topic := strL "foo", mode := shortW, style := cinematicW } := rfl

example : parse_video_config (strL "Mode: long\nStyle: dark") =
    Except.error (strL "Topik tidak boleh kosong!") := rfl

example : parse_video_config (strL "topic: a\ntopic:") =
    Except.error (strL "Topik tidak boleh kosong!") := rfl

theorem processLine_topic (c : VideoConfig) (l : Str) :
    (processLine c l).topic = if isTopicLine l then valOf l else c.topic := by
  unfold processLine isTopicLine
  cases hc : l.contains ':' with
  | false => simp
  | true =>
    cases ht : topicFamily (keyOf l) with
    | true => simp
    | false =>
      cases hm : modeFamily (keyOf l) with
      | true => simp
      | false =>
        cases hs : styleFamily (keyOf l) with
        | true => simp
        | false => simp

theorem processLine_mode (c : VideoConfig) (l : Str) :
    (processLine c l).mode = if isModeLine l then modeValWord (valOf l) else c.mode := by
  unfold processLine isModeLine
  cases hc : l.contains ':' with
  | false => simp
  | true =>
    cases ht : topicFamily (keyOf l) with
    | true => simp
    | false =>
      cases hm : modeFamily (keyOf l) with
      | true => simp
      | false =>
        cases hs : styleFamily (keyOf l) with
        | true => simp
        | false => simp

theorem processLine_style (c : VideoConfig) (l : Str) :
    (processLine c l).style = if isStyleLine l then valOf l else c.style := by
  unfold processLine isStyleLine
  cases hc : l.contains ':' with
  | false => simp
  | true =>
    cases ht : topicFamily (keyOf l) with
    | true => simp
    | false =>
      cases hm : modeFamily (keyOf l) with
      | true => simp
      | false =>
        cases hs : styleFamily (keyOf l) with
        | true => simp
        | false => simp

theorem foldl_topic (ls : List Str) (c : VideoConfig) :
    (ls.foldl processLine c).topic =
      match findLastP isTopicLine ls with
      | some l => valOf l
      | none => c.topic := by
  induction ls generalizing c with
  | nil => rfl
  | cons l tl ih =>
    simp only [List.foldl_cons, findLastP, ih]
    cases h : findLastP isTopicLine tl with
    | some x => simp
    | none =>
      simp only [processLine_topic]
      by_cases hp : isTopicLine l <;> simp [hp]

theorem foldl_mode (ls : List Str) (c : VideoConfig) :
    (ls.foldl processLine c).mode =
      match findLastP isModeLine ls with
      | some l => modeValWord (valOf l)
      | none => c.mode := by
  induction ls generalizing c with
  | nil => rfl
  | cons l tl ih =>
    simp only [List.foldl_cons, findLastP, ih]
    cases h : findLastP isModeLine tl with
    | some x => simp
    | none =>
      simp only [processLine_mode]
      by_cases hp : isModeLine l <;> simp [hp]

theorem foldl_style (ls : List Str) (c : VideoConfig) :
    (ls.foldl processLine c).style =
      match findLastP isStyleLine ls with
      | some l => valOf l
      | none => c.style := by
  induction ls generalizing c with
  | nil => rfl
  | cons l tl ih =>
    simp only [List.foldl_cons, findLastP, ih]
    cases h : findLastP isStyleLine tl with
    | some x => simp
    | none =>
      simp only [processLine_style]
      by_cases hp : isStyleLine l <;> simp [hp]

/-- The configuration actually returned by a successful parse is the fold of
the loop body over the lines. -/
theorem parse_ok_eq_fold (t : Str) (cfg : VideoConfig)
    (h : parse_video_config t = Except.ok cfg) :
    cfg = (parseLines t).foldl processLine defaultConfig := by
  unfold parse_video_config at h
  by_cases he : ((parseLines t).foldl processLine defaultConfig).topic.isEmpty
  · simp [he] at h
  · simp [he] at h
    exact h.symm


/-- C3: for a non-administrator, `can_generate` is allowed when the user has
no cooldown record; denied with the non-negative remaining-hours figure
`COOLDOWN_HOURS - elapsed / 3600` when the elapsed time since the record is
strictly below the 24-hour period; and allowed again once the period has
elapsed. -/
theorem can_generate_cooldown_spec (s : BotState) (uid : Int) (now : ℚ)
    (hadmin : toString uid ∉ s.admin_ids) :
    (s.user_cooldowns uid = none → can_generate s uid now = (true, none)) ∧
    (∀ last, s.user_cooldowns uid = some last →
      now - last < COOLDOWN_HOURS * 3600 →
        can_generate s uid now = (false, some (COOLDOWN_HOURS - (now - last) / 3600)) ∧
        0 ≤ COOLDOWN_HOURS - (now - last) / 3600) ∧
    (∀ last, s.user_cooldowns uid = some last →
      COOLDOWN_HOURS * 3600 ≤ now - last → can_generate s uid now = (true, none)) := by
  refine ⟨?_, ?_, ?_⟩
  · intro h
    simp [can_generate, hadmin, h]
  · intro last h hlt
    constructor
    · simp [can_generate, hadmin, h, hlt]
    · have h24 : now - last < 24 * 3600 := by simpa [COOLDOWN_HOURS] using hlt
      have h3 : (now - last) / 3600 < 24 := by
        rw [div_lt_iff₀ (by norm_num : (0:ℚ) < 3600)]
        linarith
      simp only [COOLDOWN_HOURS]
      linarith
  · intro last h hge
    simp [can_generate, hadmin, h, not_lt.mpr hge]

theorem can_generate_cooldown_spec_witness :
    can_generate cooldownState 1 3600 =
      (false, some (COOLDOWN_HOURS - ((3600:ℚ) - 0) / 3600)) ∧
    0 ≤ COOLDOWN_HOURS - ((3600:ℚ) - 0) / 3600 :=
  (can_generate_cooldown_spec cooldownState 1 3600 (by simp [cooldownState])).2.1 0
    (by simp [cooldownState]) (by norm_num [COOLDOWN_HOURS])

/-- C7: a user whose stringified id is on the admin allow-list is always
allowed, with the empty reason, whatever the cooldown map holds. -/
theorem can_generate_admin_allowed (s : BotState) (uid : Int) (now : ℚ)
    (h : toString uid ∈ s.admin_ids) :
    can_generate s uid now = (true, none) := by
  simp [can_generate, h]

theorem can_generate_admin_allowed_witness :
    can_generate adminState 5 10 = (true, none) ∧
    adminState.user_cooldowns 5 = some 0 ∧ (10:ℚ) - 0 < COOLDOWN_HOURS * 3600 :=
  ⟨can_generate_admin_allowed adminState 5 10 (by simp [adminState]),
   by simp [adminState], by norm_num [COOLDOWN_HOURS]⟩

/-- C1 (counterexample): a malformed submission while awaiting input makes
`parse_video_config` raise, yet `handle_input` leaves the awaiting flag set,
so the flag is not cleared regardless of parse outcome. -/
theorem handle_input_flag_counterexample :
    (∃ e, parse_video_config (strL "Mode: long") = Except.error e) ∧
    (handle_input true (strL "Mode: long")).1 = true :=
  ⟨⟨strL "Topik tidak boleh kosong!", rfl⟩, rfl⟩

/-- C1 (amended): receiving a non-command text while awaiting input clears
the flag exactly when `parse_video_config` succeeds; when it raises, the
handler returns with the flag still set, so the user may resend without
restarting. -/
theorem handle_input_flag_cleared_iff_parse_ok (t : Str) :
    (∀ cfg, parse_video_config t = Except.ok cfg → (handle_input true t).1 = false) ∧
    (∀ e, parse_video_config t = Except.error e → (handle_input true t).1 = true) := by
  constructor
  · intro cfg h
    simp [handle_input, h]
  · intro e h
    simp [handle_input, h]

theorem handle_input_flag_witness :
    (handle_input true (strL "Topic: AI")).1 = false ∧
    (handle_input true (strL "Mode: x")).1 = true :=
  ⟨(handle_input_flag_cleared_iff_parse_ok (strL "Topic: AI")).1
      { topic := strL "AI", mode := shortW, style := cinematicW } rfl,
   (handle_input_flag_cleared_iff_parse_ok (strL "Mode: x")).2
      (strL "Topik tidak boleh kosong!") rfl⟩

/-- C2: one run of the background task calls `mark_generated` exactly once
when the generator returns a result (whatever the file size and whether the
transmission succeeds), and never when the generator raises, in which case
the cooldown map is left unchanged by the whole trace. -/
theorem generate_task_marks_once_iff_success (uid : Int)
    (gen : Except String GenResult) (send_ok : Bool) (now : ℚ) (m : CooldownMap) :
    (∀ r, gen = Except.ok r →
      markCount uid (generate_video_task uid gen send_ok) = 1) ∧
    (∀ e, gen = Except.error e →
      markCount uid (generate_video_task uid gen send_ok) = 0 ∧
      applyEvents now (generate_video_task uid gen send_ok) m = m) := by
  constructor
  · rintro r rfl
    unfold generate_video_task
    by_cases hs : r.size_bytes / 1024 / 1024 < 50
    · cases send_ok <;> simp [hs, markCount, isMarkFor]
    · simp [hs, markCount, isMarkFor]
  · rintro e rfl
    exact ⟨rfl, rfl⟩

theorem generate_task_marks_witness :
    markCount 7 (generate_video_task 7 (Except.ok genOkBig) true) = 1 ∧
    markCount 7 (generate_video_task 7 (Except.error "boom") true) = 0 :=
  ⟨(generate_task_marks_once_iff_success 7 (Except.ok genOkBig) true 0
      (fun _ => none)).1 genOkBig rfl,
   ((generate_task_marks_once_iff_success 7 (Except.error "boom") true 0
      (fun _ => none)).2 "boom" rfl).1⟩

/-- C5: on a completed generation, a file strictly below 50 MB is sent as a
video attachment; at or above 50 MB no attachment is sent, the too-large
notice is sent instead, and the rate limit is still consumed. -/
theorem generate_task_size_threshold (uid : Int) (r : GenResult) (send_ok : Bool) :
    (r.size_bytes / 1024 / 1024 < 50 →
      BotEvent.sendVideoFile r.title ∈ generate_video_task uid (Except.ok r) send_ok) ∧
    (50 ≤ r.size_bytes / 1024 / 1024 →
      (∀ ti, BotEvent.sendVideoFile ti ∉ generate_video_task uid (Except.ok r) send_ok) ∧
      BotEvent.sendMessage "too_large" ∈ generate_video_task uid (Except.ok r) send_ok ∧
      markCount uid (generate_video_task uid (Except.ok r) send_ok) = 1) := by
  constructor
  · intro h
    unfold generate_video_task
    cases send_ok <;> simp [h]
  · intro h
    have h2 : ¬ r.size_bytes / 1024 / 1024 < 50 := not_lt.mpr h
    unfold generate_video_task
    refine ⟨?_, ?_, ?_⟩ <;> simp [h2, markCount, isMarkFor]

theorem generate_task_size_threshold_witness :
    BotEvent.sendVideoFile genOkSmall.title ∈
      generate_video_task 7 (Except.ok genOkSmall) true ∧
    BotEvent.sendMessage "too_large" ∈ generate_video_task 7 (Except.ok genOkBig) true ∧
    markCount 7 (generate_video_task 7 (Except.ok genOkBig) true) = 1 :=
  ⟨(generate_task_size_threshold 7 genOkSmall true).1 (by norm_num [genOkSmall]),
   ((generate_task_size_threshold 7 genOkBig true).2 (by norm_num [genOkBig])).2.1,
   ((generate_task_size_threshold 7 genOkBig true).2 (by norm_num [genOkBig])).2.2⟩

/-- C6 (counterexample): with a small file and a failing transmission, the
run deletes nothing — the cleanup line is skipped when `reply_video` raises,
contradicting deletion regardless of transmission outcome. -/
theorem generate_task_cleanup_counterexample :
    genOkSmall.size_bytes / 1024 / 1024 < 50 ∧
    BotEvent.deleteFile ∉ generate_video_task 1 (Except.ok genOkSmall) false := by
  have h : genOkSmall.size_bytes / 1024 / 1024 < 50 := by norm_num [genOkSmall]
  refine ⟨h, ?_⟩
  unfold generate_video_task
  simp [h]

/-- C6 (amended): for a completed generation below the 50 MB ceiling, the
file is deleted after the transmission only when the transmission succeeds;
when it raises, the deletion is skipped and the generic failure notice is
sent instead. -/
theorem generate_task_cleanup_on_send_success (uid : Int) (r : GenResult)
    (h : r.size_bytes / 1024 / 1024 < 50) :
    BotEvent.deleteFile ∈ generate_video_task uid (Except.ok r) true ∧
    BotEvent.deleteFile ∉ generate_video_task uid (Except.ok r) false ∧
    BotEvent.sendMessage "generation_failed" ∈
      generate_video_task uid (Except.ok r) false := by
  unfold generate_video_task
  refine ⟨?_, ?_, ?_⟩ <;> simp [h]

theorem generate_task_cleanup_witness :
    BotEvent.deleteFile ∈ generate_video_task 2 (Except.ok genOkSmall) true :=
  (generate_task_cleanup_on_send_success 2 genOkSmall (by norm_num [genOkSmall])).1

/-- A successful parse errors exactly when the folded topic field is empty. -/
theorem parse_error_iff_fold_topic_empty (t : Str) :
    (∃ e, parse_video_config t = Except.error e) ↔
      ((parseLines t).foldl processLine defaultConfig).topic = [] := by
  simp only [parse_video_config]
  by_cases h : ((parseLines t).foldl processLine defaultConfig).topic.isEmpty
  · simp only [h, if_true]
    constructor
    · intro _
      exact List.isEmpty_iff.mp h
    · intro _
      exact ⟨_, rfl⟩
  · simp only [h, if_false]
    constructor
    · rintro ⟨e, he⟩
      exact Except.noConfusion he
    · intro hempty
      exact absurd (List.isEmpty_iff.mpr hempty) h

/-- C4 (amended): `parse_video_config` raises exactly when the value of the
last topic-keyed line is empty after trimming, or no topic-keyed line exists
at all — last-wins, so an earlier non-empty topic value can be overwritten. -/
theorem parse_error_iff_last_topic_value_empty (t : Str) :
    (∃ e, parse_video_config t = Except.error e) ↔
      (∀ l, findLastP isTopicLine (parseLines t) = some l → valOf l = []) := by
  rw [parse_error_iff_fold_topic_empty]
  have htop := foldl_topic (parseLines t) defaultConfig
  cases h : findLastP isTopicLine (parseLines t) with
  | none =>
    rw [h] at htop
    constructor
    · intro _ l hl
      exact Option.noConfusion hl
    · intro _
      rw [htop]
      rfl
  | some l =>
    rw [h] at htop
    rw [htop]
    constructor
    · intro hv l' hl'
      injection hl' with hh
      rw [← hh]
      exact hv
    · intro hall
      exact hall l rfl

theorem parse_error_iff_witness :
    ∃ e, parse_video_config (strL "Mode: long") = Except.error e :=
  (parse_error_iff_last_topic_value_empty (strL "Mode: long")).mpr
    (by
      intro l hl
      rw [show findLastP isTopicLine (parseLines (strL "Mode: long")) = none from rfl] at hl
      exact Option.noConfusion hl)

/-- C4 (counterexample): in `"topic: a"` followed by `"topic:"` a line does
carry a non-empty trimmed topic value, yet parsing still raises, because the
later empty topic line overwrites it. -/
theorem parse_nonempty_topic_line_counterexample :
    (∃ l, l ∈ parseLines extraneousTopicInput ∧ isTopicLine l = true ∧ valOf l ≠ []) ∧
    (∃ e, parse_video_config extraneousTopicInput = Except.error e) := by
  constructor
  · exact ⟨strL "topic: a", by decide, by decide, by decide⟩
  · exact ⟨strL "Topik tidak boleh kosong!", rfl⟩

/-- C8: in the configuration returned by a successful parse, each field
equals the contribution of the last line of its key family — duplicates do
not accumulate, the last matching line wins. -/
theorem parse_last_wins (t : Str) (cfg : VideoConfig)
    (h : parse_video_config t = Except.ok cfg) :
    (∀ l, findLastP isTopicLine (parseLines t) = some l → cfg.topic = valOf l) ∧
    (∀ l, findLastP isModeLine (parseLines t) = some l → cfg.mode = modeValWord (valOf l)) ∧
    (∀ l, findLastP isStyleLine (parseLines t) = some l → cfg.style = valOf l) := by
  have hc := parse_ok_eq_fold t cfg h
  subst hc
  refine ⟨?_, ?_, ?_⟩
  · intro l hl
    rw [foldl_topic, hl]
  · intro l hl
    rw [foldl_mode, hl]
  · intro l hl
    rw [foldl_style, hl]

theorem parse_last_wins_witness :
    parse_video_config dupModeInput =
      Except.ok { topic := strL "x", mode := shortW, style := cinematicW } ∧
    shortW = modeValWord (valOf (strL "mode: nope")) :=
  ⟨rfl,
   (parse_last_wins dupModeInput
      { topic := strL "x", mode := shortW, style := cinematicW } rfl).2.1
     (strL "mode: nope") (by decide)⟩

/-- C9 (counterexample): in `"mode: long"` then `"mytopicmode: x"`, the last
line whose key contains `mode` has a value without `long`, yet the parsed
mode is `long` — that later line feeds the topic family instead, because the
topic check has precedence. -/
theorem parse_mode_key_counterexample :
    parse_video_config mixedKeyInput =
      Except.ok { topic := strL "x", mode := longW, style := cinematicW } ∧
    findLastP (fun l => l.contains ':' && hasSub (keyOf l) modeW)
        (parseLines mixedKeyInput) = some (strL "mytopicmode: x") ∧
    hasSub (lowerStr (valOf (strL "mytopicmode: x"))) longW = false := by
  refine ⟨rfl, by decide, by decide⟩

/-- C9 (amended): for an accepted input, the mode is `long` exactly when the
last mode-family line (key containing `mode` but not claimed by the topic
family) has a value containing `long`, and `short` otherwise, including when
no mode-family line exists; the style defaults to `cinematic` when no
style-family line exists. -/
theorem parse_mode_style_defaults (t : Str) (cfg : VideoConfig)
    (h : parse_video_config t = Except.ok cfg) :
    cfg.mode = (match findLastP isModeLine (parseLines t) with
                | some l => modeValWord (valOf l)
                | none => shortW) ∧
    (findLastP isStyleLine (parseLines t) = none → cfg.style = cinematicW) ∧
    (cfg.mode = longW ↔
      ∃ l, findLastP isModeLine (parseLines t) = some l ∧
        hasSub (lowerStr (valOf l)) longW = true) := by
  have hc := parse_ok_eq_fold t cfg h
  subst hc
  refine ⟨?_, ?_, ?_⟩
  · rw [foldl_mode]
    cases hm : findLastP isModeLine (parseLines t) <;> rfl
  · intro hn
    rw [foldl_style, hn]
    rfl
  · rw [foldl_mode]
    cases hm : findLastP isModeLine (parseLines t) with
    | none =>
      constructor
      · intro hcontra
        exact absurd hcontra (by decide)
      · rintro ⟨l, hl, -⟩
        exact Option.noConfusion hl
    | some l =>
      unfold modeValWord
      dsimp only
      by_cases hv : hasSub (lowerStr (valOf l)) longW = true
      · rw [if_pos hv]
        constructor
        · intro _
          exact ⟨l, rfl, hv⟩
        · intro _
          rfl
      · rw [if_neg hv]
        constructor
        · intro hcontra
          exact absurd hcontra (by decide)
        · rintro ⟨l', hl', hv'⟩
          injection hl' with hh
          rw [hh] at hv
          exact absurd hv' hv

theorem parse_mode_style_defaults_witness :
    ({ topic := strL "foo", mode := shortW, style := cinematicW } : VideoConfig).mode =
      shortW ∧
    ({ topic := strL "foo", mode := shortW, style := cinematicW } : VideoConfig).style =
      cinematicW := by
  have hth := parse_mode_style_defaults (strL "Topic: foo")
      { topic := strL "foo", mode := shortW, style := cinematicW } rfl
  refine ⟨?_, hth.2.1 (by decide)⟩
  rw [hth.1]
  exact rfl

/-- C10: a line with a colon updates at most one field, families checked in
the order topic, mode, style: the first matching family receives the value
and the other fields are untouched; with no matching family the config is
returned unchanged. -/
theorem processLine_precedence (c : VideoConfig) (l : Str)
    (hc : l.contains ':' = true) :
    (topicFamily (keyOf l) = true →
      processLine c l = { c with topic := valOf l }) ∧
    (topicFamily (keyOf l) = false → modeFamily (keyOf l) = true →
      processLine c l = { c with mode := modeValWord (valOf l) }) ∧
    (topicFamily (keyOf l) = false → modeFamily (keyOf l) = false →
      styleFamily (keyOf l) = true → processLine c l = { c with style := valOf l }) ∧
    (topicFamily (keyOf l) = false → modeFamily (keyOf l) = false →
      styleFamily (keyOf l) = false → processLine c l = c) := by
  have hmem : ':' ∈ l := by simpa using hc
  refine ⟨?_, ?_, ?_, ?_⟩ <;> intros <;> simp [processLine, hmem, *]

theorem processLine_precedence_witness :
    processLine defaultConfig (strL "topicmode: x") =
      { defaultConfig with topic := strL "x" } ∧
    topicFamily (keyOf (strL "topicmode: x")) = true ∧
    modeFamily (keyOf (strL "topicmode: x")) = true :=
  ⟨(processLine_precedence defaultConfig (strL "topicmode: x") (by decide)).1
      (by decide),
   by decide, by decide⟩
